import Mathlib

/-
Verification of the authenticated-session lifecycle of the Flask/Spotify
relay in `Hackathon Project/main.py`.

The Python handlers are shallowly embedded as pure Lean functions.
External effects are made explicit:
  * the current wall-clock time is a parameter `now : Int`;
  * every outbound network call (token refresh, code exchange, upstream
    API call) is an oracle argument returning `Except PyError _`, where
    `Except.error` models the Python call raising an exception;
  * the Flask `session` dict is threaded as an explicit `Session` value;
  * each embedded handler also reports how many times it invoked each
    oracle, so "calls refresh exactly once" and "no upstream call is
    made" are stated as equations on those counters.
-/

namespace SpotifyRelay

/-- JSON values, the shape of response bodies built with `jsonify`. -/
inductive Json where
  | str (v : String)
  | b (v : Bool)
  | num (v : Int)
  | null
  | arr (items : List Json)
  | obj (fields : List (String × Json))
  deriving Repr

/-- An HTTP response produced by a handler: a redirect, an HTML page
with a status code, or a JSON body with a status code.  Flask's default
status is 200. -/
inductive HttpResponse where
  | redirect (location : String)
  | html (body : String) (status : Nat)
  | json (body : Json) (status : Nat)
  deriving Repr

/-- The token record stored in `session['token_info']` (main.py line 53,
110): access token, refresh token, absolute expiry time, scope. -/
structure TokenInfo where
  access_token : String
  refresh_token : String
  expires_at : Int
  scope : String
  deriving Repr, DecidableEq

/-- The per-user Flask session, restricted to the keys main.py uses:
the optional `token_info` record (absent means unauthenticated) and the
`permanent` flag set at login (main.py line 111). -/
structure Session where
  token_info : Option TokenInfo
  permanent : Bool
  deriving Repr, DecidableEq

/-- The upstream API client `Spotify(auth=...)` (main.py line 59): a
stateless handle bound to a bearer access token. -/
structure Spotify where
  auth : String
  deriving Repr, DecidableEq

/-- A Python exception raised by an outbound call: either a typed
`SpotifyException` (caught separately by some handlers) or any other
exception. -/
inductive PyError where
  | spotifyExn (msg : String)
  | otherExn (msg : String)
  deriving Repr, DecidableEq

/-- Modelled from the spec: `sp_oauth.is_token_expired` (main.py line
50) is spotipy library code, not part of this repository.  The spec
describes `isExpired` as a pure function comparing `expiresAt` against
the current time and records that the source used no buffer, so the
token counts as expired exactly when `expires_at` is at or before
`now`. -/
def is_token_expired (now : Int) (token_info : TokenInfo) : Bool :=
  token_info.expires_at ≤ now

/-- What one call to `get_spotify_client` produces: the client (or
`none`), the session as left behind, and how many times the refresh
oracle was invoked. -/
structure ClientResult where
  client : Option Spotify
  session : Session
  refreshCalls : Nat
  deriving Repr, DecidableEq

/-- Session Authenticator, `get_spotify_client` (main.py lines 43-59).
`refresh_access_token` is the spotipy refresh oracle; its `.error`
outcome models the Python call raising.  The handler catches every
exception of the refresh (`except Exception`, line 54), so the whole
function returns `Except.ok` on every path; an `Except.error` result
would model an exception escaping the function boundary. -/
def get_spotify_client (now : Int)
    (refresh_access_token : String → Except PyError TokenInfo)
    (s : Session) : Except PyError ClientResult :=
  match s.token_info with
  | none => .ok { client := none, session := s, refreshCalls := 0 }
  | some token_info =>
    if is_token_expired now token_info then
      match refresh_access_token token_info.refresh_token with
      | .ok t =>
        .ok { client := some { auth := t.access_token },
              session := { s with token_info := some t },
              refreshCalls := 1 }
      | .error _ =>
        .ok { client := none,
              session := { s with token_info := none },
              refreshCalls := 1 }
    else
      .ok { client := some { auth := token_info.access_token },
            session := s, refreshCalls := 0 }

/-- Python truthiness of `request.args.get(name)`: `None` (absent) and
the empty string are falsy; any non-empty string is truthy.  Flask
yields `""` for a parameter that is present with an empty value, e.g.
`?error=`. -/
def truthyStr : Option String → Bool
  | none => false
  | some v => !v.isEmpty

/-- What one call to the `/callback` handler produces: the response,
the session as left behind, and how many times the code-exchange
oracle was invoked. -/
structure CallbackResult where
  response : HttpResponse
  session : Session
  exchangeCalls : Nat
  deriving Repr

/-- The `/callback` handler (main.py lines 94-117).  `get_access_token`
is the spotipy code-exchange oracle; `.error` models it raising.  The
whole body sits in a `try` whose `except Exception` returns the
`callback_failed` redirect; the exchange is the only raise site, so
that `except` is reached exactly on an `.error` exchange outcome,
before `session['token_info']` is assigned. -/
def callback (get_access_token : String → Except PyError TokenInfo)
    (code err : Option String) (s : Session) : CallbackResult :=
  if truthyStr err then
    { response := .redirect "/?error=access_denied", session := s,
      exchangeCalls := 0 }
  else if !truthyStr code then
    { response := .redirect "/?error=no_code", session := s,
      exchangeCalls := 0 }
  else
    match get_access_token (code.getD "") with
    | .ok token_info =>
      { response := .redirect "/create_playlist",
        session := { s with token_info := some token_info, permanent := true },
        exchangeCalls := 1 }
    | .error _ =>
      { response := .redirect "/?error=callback_failed", session := s,
        exchangeCalls := 1 }

/-- The record returned by `sp.current_user()`, restricted to the keys
main.py reads: `id` (required), `display_name` and `email` (read with
`.get`, so possibly null). -/
structure User where
  id : String
  display_name : Option String
  email : Option String
  deriving Repr, DecidableEq

/-- `jsonify` of an optional string: `null` when absent. -/
def optStr : Option String → Json
  | none => .null
  | some v => .str v

/-- The `/auth/status` handler (main.py lines 125-144).  `current_user`
is the upstream call, keyed by the client's bearer token.  Only
`SpotifyException` is caught (line 140); any other exception raised by
the upstream call escapes the handler, which the embedding reports as
`Except.error`. -/
def auth_status (now : Int)
    (refresh_access_token : String → Except PyError TokenInfo)
    (current_user : String → Except PyError User)
    (s : Session) : Except PyError (HttpResponse × Session) :=
  match get_spotify_client now refresh_access_token s with
  | .error e => .error e
  | .ok r =>
    match r.client with
    | none => .ok (.json (.obj [("authenticated", .b false)]) 200, r.session)
    | some sp =>
      match current_user sp.auth with
      | .ok user =>
        .ok (.json (.obj
          [("authenticated", .b true),
           ("user", .obj
             [("id", .str user.id),
              ("display_name", optStr user.display_name),
              ("email", optStr user.email)])]) 200, r.session)
      | .error (.spotifyExn _) =>
        .ok (.json (.obj [("authenticated", .b false)]) 200,
             { r.session with token_info := none })
      | .error (.otherExn m) => .error (.otherExn m)

/-- One playlist as projected by `/api/user/playlists` (main.py lines
223-229): id, name, total track count, visibility, external URL. -/
structure Playlist where
  id : String
  name : String
  tracks_total : Int
  is_public : Bool
  url : String
  deriving Repr, DecidableEq

/-- What one call to an `/api/*` handler produces: the response, the
session as left behind, and how many upstream API calls were made. -/
structure ApiResult where
  response : HttpResponse
  session : Session
  upstreamCalls : Nat
  deriving Repr

/-- The JSON projection of one playlist (main.py lines 223-229). -/
def playlistJson (p : Playlist) : Json :=
  .obj [("id", .str p.id), ("name", .str p.name),
        ("tracks", .num p.tracks_total), ("public", .b p.is_public),
        ("url", .str p.url)]

/-- The `/api/user/playlists` handler (main.py lines 213-236).
`current_user_playlists` is the upstream call, keyed by the client's
bearer token and the limit 50.  `SpotifyException` maps to a 400 JSON
error, any other exception to a 500 JSON error. -/
def get_user_playlists (now : Int)
    (refresh_access_token : String → Except PyError TokenInfo)
    (current_user_playlists : String → Nat → Except PyError (List Playlist))
    (s : Session) : Except PyError ApiResult :=
  match get_spotify_client now refresh_access_token s with
  | .error e => .error e
  | .ok r =>
    match r.client with
    | none =>
      .ok { response := .json (.obj [("error", .str "Not authenticated")]) 401,
            session := r.session, upstreamCalls := 0 }
    | some sp =>
      match current_user_playlists sp.auth 50 with
      | .ok playlists =>
        .ok { response := .json (.obj
                [("playlists", .arr (playlists.map playlistJson))]) 200,
              session := r.session, upstreamCalls := 1 }
      | .error (.spotifyExn m) =>
        .ok { response := .json (.obj
                [("error", .str ("Spotify API error: " ++ m))]) 400,
              session := r.session, upstreamCalls := 1 }
      | .error (.otherExn _) =>
        .ok { response := .json (.obj [("error", .str "Internal server error")]) 500,
              session := r.session, upstreamCalls := 1 }

/-- One track as projected by `/api/search` (main.py lines 251-258):
uri, name, artist names, album name, duration, preview URL. -/
structure Track where
  uri : String
  name : String
  artists : List String
  album : String
  duration_ms : Int
  preview_url : Option String
  deriving Repr, DecidableEq

/-- The JSON projection of one track (main.py lines 251-258). -/
def trackJson (t : Track) : Json :=
  .obj [("uri", .str t.uri), ("name", .str t.name),
        ("artists", .arr (t.artists.map Json.str)),
        ("album", .str t.album), ("duration_ms", .num t.duration_ms),
        ("preview_url", optStr t.preview_url)]

/-- The `/api/search` handler (main.py lines 238-267).  `searchCall` is
the upstream `sp.search` call, keyed by the client's bearer token, the
query and the limit 20.  `request.args.get('q', '')` yields `""` when
`q` is absent, and `if not query` rejects the empty string. -/
def search_tracks (now : Int)
    (refresh_access_token : String → Except PyError TokenInfo)
    (searchCall : String → String → Nat → Except PyError (List Track))
    (q : Option String) (s : Session) : Except PyError ApiResult :=
  match get_spotify_client now refresh_access_token s with
  | .error e => .error e
  | .ok r =>
    match r.client with
    | none =>
      .ok { response := .json (.obj [("error", .str "Not authenticated")]) 401,
            session := r.session, upstreamCalls := 0 }
    | some sp =>
      let query := q.getD ""
      if query.isEmpty then
        .ok { response := .json (.obj
                [("error", .str "No search query provided")]) 400,
              session := r.session, upstreamCalls := 0 }
      else
        match searchCall sp.auth query 20 with
        | .ok items =>
          .ok { response := .json (.obj
                  [("tracks", .arr (items.map trackJson))]) 200,
                session := r.session, upstreamCalls := 1 }
        | .error (.spotifyExn m) =>
          .ok { response := .json (.obj
                  [("error", .str ("Spotify API error: " ++ m))]) 400,
                session := r.session, upstreamCalls := 1 }
        | .error (.otherExn _) =>
          .ok { response := .json (.obj
                  [("error", .str "Internal server error")]) 500,
                session := r.session, upstreamCalls := 1 }

/-- What one call to `/modify_playlist/...` produces: the response, the
session as left behind, and how many times each playlist-mutating
upstream call was invoked. -/
structure PageResult where
  response : HttpResponse
  session : Session
  addCalls : Nat
  removeCalls : Nat
  deriving Repr

/-- The `/modify_playlist/<playlist_id>/<action>/<track_uri>` handler
(main.py lines 189-211).  `addItems` and `removeItems` are the two
playlist-mutating upstream calls, keyed by the client's bearer token,
the playlist id and the uri list.  `SpotifyException` and other
exceptions both map to HTML pages with Flask's default 200 status. -/
def modify_playlist (now : Int)
    (refresh_access_token : String → Except PyError TokenInfo)
    (addItems removeItems : String → String → List String → Except PyError Unit)
    (playlist_id action track_uri : String)
    (s : Session) : Except PyError PageResult :=
  match get_spotify_client now refresh_access_token s with
  | .error e => .error e
  | .ok r =>
    match r.client with
    | none =>
      .ok { response := .redirect "/", session := r.session,
            addCalls := 0, removeCalls := 0 }
    | some sp =>
      if action == "add" then
        match addItems sp.auth playlist_id [track_uri] with
        | .ok _ =>
          .ok { response := .html ("<h1>Success!</h1><p>Added " ++ track_uri
                  ++ "</p><p><a href=\x27/\x27>Back to Home</a></p>") 200,
                session := r.session, addCalls := 1, removeCalls := 0 }
        | .error (.spotifyExn m) =>
          .ok { response := .html ("<h1>Error modifying playlist</h1><p>" ++ m
                  ++ "</p><p><a href=\x27/\x27>Back to Home</a></p>") 200,
                session := r.session, addCalls := 1, removeCalls := 0 }
        | .error (.otherExn _) =>
          .ok { response := .html
                  "<h1>Unexpected error</h1><p><a href=\x27/\x27>Back to Home</a></p>" 200,
                session := r.session, addCalls := 1, removeCalls := 0 }
      else if action == "remove" then
        match removeItems sp.auth playlist_id [track_uri] with
        | .ok _ =>
          .ok { response := .html ("<h1>Success!</h1><p>Removed " ++ track_uri
                  ++ "</p><p><a href=\x27/\x27>Back to Home</a></p>") 200,
                session := r.session, addCalls := 0, removeCalls := 1 }
        | .error (.spotifyExn m) =>
          .ok { response := .html ("<h1>Error modifying playlist</h1><p>" ++ m
                  ++ "</p><p><a href=\x27/\x27>Back to Home</a></p>") 200,
                session := r.session, addCalls := 0, removeCalls := 1 }
        | .error (.otherExn _) =>
          .ok { response := .html
                  "<h1>Unexpected error</h1><p><a href=\x27/\x27>Back to Home</a></p>" 200,
                session := r.session, addCalls := 0, removeCalls := 1 }
      else
        .ok { response := .html
                "<h1>Invalid action</h1><p>Use \x27add\x27 or \x27remove\x27</p><p><a href=\x27/\x27>Back to Home</a></p>" 200,
              session := r.session, addCalls := 0, removeCalls := 0 }

/-! Concrete fixtures used by witnesses and counterexamples. -/

/-- A token fixture expiring at time 100. -/
def tokA : TokenInfo :=
  { access_token := "AT-A", refresh_token := "RT-A", expires_at := 100,
    scope := "playlist-modify-public" }

/-- A token fixture expiring at time 900. -/
def tokB : TokenInfo :=
  { access_token := "AT-B", refresh_token := "RT-B", expires_at := 900,
    scope := "playlist-modify-public" }

/-- An oracle whose call always succeeds with token `t`. -/
def okOracle (t : TokenInfo) : String → Except PyError TokenInfo :=
  fun _ => .ok t

/-- An oracle whose call always raises `e`. -/
def failOracle (e : PyError) : String → Except PyError TokenInfo :=
  fun _ => .error e

/-- A session holding token `t`. -/
def sessionWith (t : TokenInfo) : Session :=
  { token_info := some t, permanent := true }

/-- The empty session of a user who never logged in. -/
def emptySession : Session :=
  { token_info := none, permanent := false }

/-! Claims about the Session Authenticator. -/

/-- C1: for every session whose token has `expires_at` in the past, one
call to `get_spotify_client` invokes the refresh oracle exactly once;
on success the session's `token_info` is overwritten with the refreshed
token and a client bound to the new access token is returned; on
failure the session's `token_info` is removed entirely and no client is
returned, with no retry within the same call (`refreshCalls = 1` in
both outcomes). -/
theorem expired_token_refreshes_exactly_once
    (now : Int) (refresh_access_token : String → Except PyError TokenInfo)
    (s : Session) (ti : TokenInfo)
    (hti : s.token_info = some ti) (hpast : ti.expires_at < now) :
    (∀ t, refresh_access_token ti.refresh_token = .ok t →
      get_spotify_client now refresh_access_token s =
        .ok { client := some { auth := t.access_token },
              session := { s with token_info := some t },
              refreshCalls := 1 }) ∧
    (∀ e, refresh_access_token ti.refresh_token = .error e →
      get_spotify_client now refresh_access_token s =
        .ok { client := none,
              session := { s with token_info := none },
              refreshCalls := 1 }) := by
  have hexp : is_token_expired now ti = true := by
    simp only [is_token_expired, decide_eq_true_eq]
    omega
  constructor
  · intro t ht
    simp [get_spotify_client, hti, hexp, ht]
  · intro e he
    simp [get_spotify_client, hti, hexp, he]

/-- Witness for C1 at a concrete expired session, for both refresh
outcomes. -/
theorem expired_token_refreshes_exactly_once_witness :
    (get_spotify_client 200 (okOracle tokB) (sessionWith tokA) =
      .ok { client := some { auth := tokB.access_token },
            session := { sessionWith tokA with token_info := some tokB },
            refreshCalls := 1 }) ∧
    (get_spotify_client 200 (failOracle (.otherExn "down")) (sessionWith tokA) =
      .ok { client := none,
            session := { sessionWith tokA with token_info := none },
            refreshCalls := 1 }) :=
  ⟨(expired_token_refreshes_exactly_once 200 (okOracle tokB)
      (sessionWith tokA) tokA rfl (by decide)).1 tokB rfl,
   (expired_token_refreshes_exactly_once 200 (failOracle (.otherExn "down"))
      (sessionWith tokA) tokA rfl (by decide)).2 (.otherExn "down") rfl⟩

/-- C2: for every session whose token has `expires_at` in the future, a
call to `get_spotify_client` returns a client bound to the stored
access token without invoking the refresh oracle (`refreshCalls = 0`),
and a second call in succession sees the session unchanged and returns
the same result. -/
theorem valid_token_no_refresh_and_idempotent
    (now : Int) (refresh_access_token : String → Except PyError TokenInfo)
    (s : Session) (ti : TokenInfo)
    (hti : s.token_info = some ti) (hfut : now < ti.expires_at) :
    get_spotify_client now refresh_access_token s =
      .ok { client := some { auth := ti.access_token },
            session := s, refreshCalls := 0 } ∧
    (∀ r, get_spotify_client now refresh_access_token s = .ok r →
      r.session = s ∧
      get_spotify_client now refresh_access_token r.session =
        get_spotify_client now refresh_access_token s) := by
  have hexp : is_token_expired now ti = false := by
    simp only [is_token_expired, decide_eq_false_iff_not]
    omega
  have h1 : get_spotify_client now refresh_access_token s =
      .ok { client := some { auth := ti.access_token },
            session := s, refreshCalls := 0 } := by
    simp [get_spotify_client, hti, hexp]
  refine ⟨h1, fun r hr => ?_⟩
  rw [h1] at hr
  injection hr with hr
  subst hr
  exact ⟨rfl, rfl⟩

/-- Witness for C2 at a concrete non-expired session. -/
theorem valid_token_no_refresh_and_idempotent_witness :
    get_spotify_client 50 (failOracle (.otherExn "down")) (sessionWith tokA) =
      .ok { client := some { auth := tokA.access_token },
            session := sessionWith tokA, refreshCalls := 0 } :=
  (valid_token_no_refresh_and_idempotent 50 (failOracle (.otherExn "down"))
    (sessionWith tokA) tokA rfl (by decide)).1

/-- C3: the expiry check is a pure comparison of the stored
`expires_at` against the current time with no buffer: it reports
expired exactly when `expires_at` is at or before `now`, and not
expired whenever `expires_at` is strictly in the future. -/
theorem is_token_expired_no_buffer (now : Int) (ti : TokenInfo) :
    (is_token_expired now ti = true ↔ ti.expires_at ≤ now) ∧
    (now < ti.expires_at → is_token_expired now ti = false) := by
  refine ⟨by simp [is_token_expired], fun h => ?_⟩
  simp only [is_token_expired, decide_eq_false_iff_not]
  omega

/-- Witness for C3 at a concrete time strictly before expiry. -/
theorem is_token_expired_no_buffer_witness :
    ((50 : Int) < tokA.expires_at ∧ is_token_expired 50 tokA = false) ∧
    is_token_expired 100 tokA = true :=
  ⟨⟨by decide, (is_token_expired_no_buffer 50 tokA).2 (by decide)⟩,
   (is_token_expired_no_buffer 100 tokA).1.mpr (by decide)⟩

/-- C5: for every session holding a token record, `get_spotify_client`
returns normally (`Except.ok`) whatever the refresh oracle does — an
exception of the refresh never escapes the boundary — and when the
refresh path is taken and the refresh raises, the outcome is no client
and a session with `token_info` removed. -/
theorem get_spotify_client_never_raises
    (now : Int) (refresh_access_token : String → Except PyError TokenInfo)
    (s : Session) (ti : TokenInfo) (hti : s.token_info = some ti) :
    ∃ r, get_spotify_client now refresh_access_token s = .ok r ∧
      (∀ e, is_token_expired now ti = true →
        refresh_access_token ti.refresh_token = .error e →
        r.client = none ∧ r.session.token_info = none) := by
  cases hexp : is_token_expired now ti with
  | false =>
    refine ⟨{ client := some { auth := ti.access_token }, session := s,
              refreshCalls := 0 }, ?_, ?_⟩
    · simp [get_spotify_client, hti, hexp]
    · intro e h _
      exact absurd h (by simp)
  | true =>
    cases hre : refresh_access_token ti.refresh_token with
    | ok t =>
      refine ⟨{ client := some { auth := t.access_token },
                session := { s with token_info := some t },
                refreshCalls := 1 }, ?_, ?_⟩
      · simp [get_spotify_client, hti, hexp, hre]
      · intro e _ h
        exact absurd h (by simp)
    | error e0 =>
      refine ⟨{ client := none, session := { s with token_info := none },
                refreshCalls := 1 }, ?_, fun e _ _ => ⟨rfl, rfl⟩⟩
      simp [get_spotify_client, hti, hexp, hre]

/-- Witness for C5 at a concrete expired session whose refresh
raises. -/
theorem get_spotify_client_never_raises_witness :
    ∃ r, get_spotify_client 200 (failOracle (.spotifyExn "revoked"))
        (sessionWith tokA) = .ok r ∧
      (∀ e, is_token_expired 200 tokA = true →
        failOracle (.spotifyExn "revoked") tokA.refresh_token = .error e →
        r.client = none ∧ r.session.token_info = none) :=
  get_spotify_client_never_raises 200 (failOracle (.spotifyExn "revoked"))
    (sessionWith tokA) tokA rfl

/-- C6: for every session with no `token_info` entry,
`get_spotify_client` returns no client, leaves the session unchanged
and never invokes the refresh oracle. -/
theorem no_token_returns_none
    (now : Int) (refresh_access_token : String → Except PyError TokenInfo)
    (s : Session) (h : s.token_info = none) :
    get_spotify_client now refresh_access_token s =
      .ok { client := none, session := s, refreshCalls := 0 } := by
  simp [get_spotify_client, h]

/-- Witness for C6 at the empty session. -/
theorem no_token_returns_none_witness :
    get_spotify_client 0 (okOracle tokA) emptySession =
      .ok { client := none, session := emptySession, refreshCalls := 0 } :=
  no_token_returns_none 0 (okOracle tokA) emptySession rfl

/-! Claims about the route handlers. -/

/-- C4 counterexample: with `?error=` present but empty (Flask yields
the empty string, which is falsy in `if error:`) and a code supplied,
the handler does NOT redirect to `/?error=access_denied` and does
attempt the token exchange, contradicting the claim that a present
`error` parameter short-circuits before any exchange. -/
theorem callback_empty_error_param_counterexample :
    (callback (okOracle tokB) (some "abc") (some "") emptySession).exchangeCalls = 1 ∧
    ¬ ((callback (okOracle tokB) (some "abc") (some "") emptySession).response =
          .redirect "/?error=access_denied" ∧
       (callback (okOracle tokB) (some "abc") (some "") emptySession).exchangeCalls = 0) := by
  refine ⟨rfl, fun h => ?_⟩
  have h1 : HttpResponse.redirect "/create_playlist" =
      HttpResponse.redirect "/?error=access_denied" := h.1
  simp at h1

/-- C4 (amended): for every request to `/callback`: if `error` is
present with a non-empty value the handler redirects to
`/?error=access_denied` without attempting the exchange; otherwise if
`code` is absent or empty it redirects to `/?error=no_code`; otherwise
it exchanges the code exactly once and, on success, stores the
resulting token in `session['token_info']`, marks the session permanent
and redirects to the `create_playlist` route, while if the exchange
raises it redirects to `/?error=callback_failed` with the session
unchanged. -/
theorem callback_dispatch
    (get_access_token : String → Except PyError TokenInfo)
    (code err : Option String) (s : Session) :
    (truthyStr err = true →
      callback get_access_token code err s =
        { response := .redirect "/?error=access_denied", session := s,
          exchangeCalls := 0 }) ∧
    (truthyStr err = false → truthyStr code = false →
      callback get_access_token code err s =
        { response := .redirect "/?error=no_code", session := s,
          exchangeCalls := 0 }) ∧
    (truthyStr err = false → truthyStr code = true →
      (∀ t, get_access_token (code.getD "") = .ok t →
        callback get_access_token code err s =
          { response := .redirect "/create_playlist",
            session := { s with token_info := some t, permanent := true },
            exchangeCalls := 1 }) ∧
      (∀ e, get_access_token (code.getD "") = .error e →
        callback get_access_token code err s =
          { response := .redirect "/?error=callback_failed", session := s,
            exchangeCalls := 1 })) := by
  refine ⟨fun he => ?_, fun he hc => ?_,
    fun he hc => ⟨fun t ht => ?_, fun e hex => ?_⟩⟩
  · simp [callback, he]
  · simp [callback, he, hc]
  · simp [callback, he, hc, ht]
  · simp [callback, he, hc, hex]

/-- Witness for C4 on the three reachable concrete branches: declined
consent, missing code, and a successful exchange. -/
theorem callback_dispatch_witness :
    (callback (okOracle tokB) (some "abc") (some "denied") emptySession =
      { response := .redirect "/?error=access_denied", session := emptySession,
        exchangeCalls := 0 }) ∧
    (callback (okOracle tokB) none none emptySession =
      { response := .redirect "/?error=no_code", session := emptySession,
        exchangeCalls := 0 }) ∧
    (callback (okOracle tokB) (some "abc") none emptySession =
      { response := .redirect "/create_playlist",
        session := { emptySession with token_info := some tokB, permanent := true },
        exchangeCalls := 1 }) :=
  ⟨(callback_dispatch (okOracle tokB) (some "abc") (some "denied")
      emptySession).1 rfl,
   (callback_dispatch (okOracle tokB) none none emptySession).2.1 rfl rfl,
   ((callback_dispatch (okOracle tokB) (some "abc") none
      emptySession).2.2 rfl rfl).1 tokB rfl⟩

/-- C7: whenever the Session Authenticator yields no client, both
`/api/user/playlists` and `/api/search` respond 401 with JSON body
`\x7b"error": "Not authenticated"\x7d` and make no upstream API call. -/
theorem api_routes_unauthenticated_401
    (now : Int) (refresh_access_token : String → Except PyError TokenInfo)
    (current_user_playlists : String → Nat → Except PyError (List Playlist))
    (searchCall : String → String → Nat → Except PyError (List Track))
    (q : Option String) (s : Session) (r : ClientResult)
    (h : get_spotify_client now refresh_access_token s = .ok r)
    (hc : r.client = none) :
    get_user_playlists now refresh_access_token current_user_playlists s =
      .ok { response := .json (.obj [("error", .str "Not authenticated")]) 401,
            session := r.session, upstreamCalls := 0 } ∧
    search_tracks now refresh_access_token searchCall q s =
      .ok { response := .json (.obj [("error", .str "Not authenticated")]) 401,
            session := r.session, upstreamCalls := 0 } := by
  constructor
  · simp [get_user_playlists, h, hc]
  · simp [search_tracks, h, hc]

/-- Witness for C7 at the empty session. -/
theorem api_routes_unauthenticated_401_witness :
    get_user_playlists 0 (okOracle tokA) (fun _ _ => .ok []) emptySession =
      .ok { response := .json (.obj [("error", .str "Not authenticated")]) 401,
            session := emptySession, upstreamCalls := 0 } ∧
    search_tracks 0 (okOracle tokA) (fun _ _ _ => .ok []) (some "test")
        emptySession =
      .ok { response := .json (.obj [("error", .str "Not authenticated")]) 401,
            session := emptySession, upstreamCalls := 0 } :=
  api_routes_unauthenticated_401 0 (okOracle tokA) (fun _ _ => .ok [])
    (fun _ _ _ => .ok []) (some "test") emptySession
    { client := none, session := emptySession, refreshCalls := 0 } rfl rfl

/-- C8: for every authenticated `/api/search` request whose `q`
parameter is missing or empty, the response is 400 with JSON body
`\x7b"error": "No search query provided"\x7d` and no upstream search
call is made. -/
theorem search_empty_query_400
    (now : Int) (refresh_access_token : String → Except PyError TokenInfo)
    (searchCall : String → String → Nat → Except PyError (List Track))
    (q : Option String) (s : Session) (r : ClientResult) (sp : Spotify)
    (h : get_spotify_client now refresh_access_token s = .ok r)
    (hc : r.client = some sp) (hq : q = none ∨ q = some "") :
    search_tracks now refresh_access_token searchCall q s =
      .ok { response := .json (.obj [("error", .str "No search query provided")]) 400,
            session := r.session, upstreamCalls := 0 } := by
  have hq' : (q.getD "").isEmpty = true := by
    rcases hq with h' | h' <;> subst h' <;> rfl
  simp [search_tracks, h, hc, hq']

/-- Witness for C8 at a concrete authenticated session with `?q=`. -/
theorem search_empty_query_400_witness :
    search_tracks 0 (okOracle tokA) (fun _ _ _ => .ok []) (some "")
        (sessionWith tokB) =
      .ok { response := .json (.obj [("error", .str "No search query provided")]) 400,
            session := sessionWith tokB, upstreamCalls := 0 } :=
  search_empty_query_400 0 (okOracle tokA) (fun _ _ _ => .ok []) (some "")
    (sessionWith tokB)
    { client := some { auth := tokB.access_token }, session := sessionWith tokB,
      refreshCalls := 0 }
    { auth := tokB.access_token } rfl rfl (Or.inr rfl)

/-- C9: for every authenticated `/modify_playlist` request whose action
is neither "add" nor "remove", the response is an HTML page containing
"Invalid action" with status 200, and neither playlist-mutating
upstream call is invoked. -/
theorem modify_playlist_invalid_action
    (now : Int) (refresh_access_token : String → Except PyError TokenInfo)
    (addItems removeItems : String → String → List String → Except PyError Unit)
    (playlist_id action track_uri : String)
    (s : Session) (r : ClientResult) (sp : Spotify)
    (h : get_spotify_client now refresh_access_token s = .ok r)
    (hc : r.client = some sp)
    (ha : action ≠ "add") (hrem : action ≠ "remove") :
    modify_playlist now refresh_access_token addItems removeItems
        playlist_id action track_uri s =
      .ok { response := .html
              "<h1>Invalid action</h1><p>Use \x27add\x27 or \x27remove\x27</p><p><a href=\x27/\x27>Back to Home</a></p>" 200,
            session := r.session, addCalls := 0, removeCalls := 0 } ∧
    ∃ p q, "<h1>Invalid action</h1><p>Use \x27add\x27 or \x27remove\x27</p><p><a href=\x27/\x27>Back to Home</a></p>"
      = p ++ "Invalid action" ++ q := by
  refine ⟨?_, "<h1>",
    "</h1><p>Use \x27add\x27 or \x27remove\x27</p><p><a href=\x27/\x27>Back to Home</a></p>", rfl⟩
  simp [modify_playlist, h, hc, ha, hrem]

/-- Witness for C9 at a concrete misspelled action. -/
theorem modify_playlist_invalid_action_witness :
    modify_playlist 0 (okOracle tokA) (fun _ _ _ => .ok ()) (fun _ _ _ => .ok ())
        "pl1" "addd" "spotify:track:xyz" (sessionWith tokB) =
      .ok { response := .html
              "<h1>Invalid action</h1><p>Use \x27add\x27 or \x27remove\x27</p><p><a href=\x27/\x27>Back to Home</a></p>" 200,
            session := sessionWith tokB, addCalls := 0, removeCalls := 0 } :=
  (modify_playlist_invalid_action 0 (okOracle tokA) (fun _ _ _ => .ok ())
    (fun _ _ _ => .ok ()) "pl1" "addd" "spotify:track:xyz" (sessionWith tokB)
    { client := some { auth := tokB.access_token }, session := sessionWith tokB,
      refreshCalls := 0 }
    { auth := tokB.access_token } rfl rfl (by decide) (by decide)).1

/-- C10: for every `/auth/status` request where the Session
Authenticator yields a client but the upstream `current_user` call
raises a `SpotifyException`, the handler removes `token_info` from the
session and responds 200 with JSON body
`\x7b"authenticated": false\x7d`. -/
theorem auth_status_spotify_error_logs_out
    (now : Int) (refresh_access_token : String → Except PyError TokenInfo)
    (current_user : String → Except PyError User)
    (s : Session) (r : ClientResult) (sp : Spotify) (m : String)
    (h : get_spotify_client now refresh_access_token s = .ok r)
    (hc : r.client = some sp)
    (hu : current_user sp.auth = .error (.spotifyExn m)) :
    auth_status now refresh_access_token current_user s =
      .ok (.json (.obj [("authenticated", .b false)]) 200,
           { r.session with token_info := none }) := by
  simp [auth_status, h, hc, hu]

/-- Witness for C10 at a concrete rate-limited upstream call. -/
theorem auth_status_spotify_error_logs_out_witness :
    auth_status 0 (okOracle tokA)
        (fun _ => .error (.spotifyExn "rate limited")) (sessionWith tokB) =
      .ok (.json (.obj [("authenticated", .b false)]) 200,
           { sessionWith tokB with token_info := none }) :=
  auth_status_spotify_error_logs_out 0 (okOracle tokA)
    (fun _ => .error (.spotifyExn "rate limited")) (sessionWith tokB)
    { client := some { auth := tokB.access_token }, session := sessionWith tokB,
      refreshCalls := 0 }
    { auth := tokB.access_token } "rate limited" rfl rfl rfl

end SpotifyRelay
